import Mathlib

/-
Shallow embedding of the stellarphot core:
  - src/stellarphot/core.py (Camera, BaseEnhancedTable, PhotometryData)
  - src/stellarphot/gui_tools/seeing_profile_functions.py (RadialProfile.find_hwhm,
    RadialProfile.FWHM, SeeingProfileWidget default aperture radius)

Tables are modelled as association lists of named columns; numeric values are
rationals (exact arithmetic standing in for numpy floats); the transcendental
operations the code calls (np.pi, np.sqrt, np.log10, and the astropy barycentric
time conversion) are abstracted as parameters of the pipeline, so every theorem
below holds for any values of those operations. Python exceptions are modelled
by an explicit error type; each distinct raise site gets its own constructor.
-/

deriving instance DecidableEq for Except

namespace Stellarphot

/-- A cell of an astropy table column: a number, a Time entry carrying a
time-scale tag (seconds since the MJD epoch), or a string. -/
inductive Cell where
  | num (v : ℚ)
  | time (secs : ℚ) (scale : String)
  | str (s : String)
deriving DecidableEq

/-- A table column: an optional unit tag plus the list of cells (one per row). -/
structure Column where
  unit : Option String
  cells : List Cell
deriving DecidableEq

/-- A table is an ordered association list of named columns. -/
abbrev Table := List (String × Column)

/-- Numeric value of a cell (the `.value` view; non-numeric cells default to 0,
which is only reachable on ill-typed tables the source would crash on). -/
def cellNum : Cell → ℚ
  | .num v => v
  | .time v _ => v
  | .str _ => 0

/-- Time value (seconds since the MJD epoch) of a cell. -/
def cellTime : Cell → ℚ
  | .time v _ => v
  | .num v => v
  | .str _ => 0

/-- Look up a column by name (first match), as `data[name]` does. -/
def getCol : Table → String → Option Column
  | [], _ => none
  | (m, c) :: rest, n => if m = n then some c else getCol rest n

/-- Whether the table has a column of the given name (`name in self.colnames`). -/
def hasCol (t : Table) (n : String) : Bool := (getCol t n).isSome

/-- Assign a column (`self[name] = ...`): replace the first column of that name
in place, or append a new column at the end. -/
def setCol : Table → String → Column → Table
  | [], n, c => [(n, c)]
  | (m, d) :: rest, n, c =>
    if m = n then (n, c) :: rest else (m, d) :: setCol rest n c

/-- First cell of a named column (`data[name][0]`). -/
def getCell0 (t : Table) (n : String) : Option Cell :=
  (getCol t n).bind (fun c => c.cells.head?)

/-- Cells of a named column, defaulting to the empty list. -/
def getColCells (t : Table) (n : String) : List Cell :=
  match getCol t n with
  | some c => c.cells
  | none => []

/-- Unit tag of a named column, when the column exists. -/
def unitOf (t : Table) (n : String) : Option (Option String) :=
  (getCol t n).map Column.unit

/-- Whether an Except value is a success. -/
def isOkB {α β : Type} : Except α β → Bool
  | .ok _ => true
  | .error _ => false

/-- One constructor per distinct exception raise site in the modelled code. -/
inductive PhotError where
  | attributeErrorNoneCopy
  | wrongTimeScale (scale : String)
  | dateObsNotTime
  | indexError
  | keyError (col : String)
  | missingColumn (col : String)
  | wrongUnit (col : String) (expected : String) (actual : Option String)
  | inconsistentUnits (col : String) (expected actual : Option String)
  | alreadyComputed (col : String)
  | unreachableColumn (col : String)
deriving DecidableEq

/-- A quantity with a unit, as `astropy.units.Quantity`. -/
structure Qty where
  value : ℚ
  unit : String
deriving DecidableEq

/-- Camera from core.py: gain, read noise and dark current, each a quantity.
The Lean type enforces the "must have units" constructor checks. -/
structure Camera where
  gain : Qty
  read_noise : Qty
  dark_current : Qty
deriving DecidableEq

/-- Observatory location (astropy EarthLocation): latitude and longitude in
degrees, height in meters. -/
structure Observatory where
  lat : ℚ
  lon : ℚ
  height : ℚ
deriving DecidableEq

/-- The operations the pipeline takes from numpy/astropy, abstracted: np.pi,
np.sqrt, np.log10, and the whole barycentric-JD row computation of
add_bjd_col (TDB conversion plus light travel time plus half the exposure),
as a function of observatory latitude and longitude, observation time,
ra, dec and exposure. -/
structure RealOps where
  pi : ℚ
  sqrt : ℚ → ℚ
  log10 : ℚ → ℚ
  bjdFun : ℚ → ℚ → ℚ → ℚ → ℚ → ℚ → ℚ

/-- A table description: required column names with optional required units. -/
abbrev Description := List (String × Option String)

/-- phot_descript from core.py, in its source order. -/
def photDescript : Description :=
  [("star_id", none),
   ("ra", some "deg"),
   ("dec", some "deg"),
   ("xcenter", some "pix"),
   ("ycenter", some "pix"),
   ("fwhm_x", some "pix"),
   ("fwhm_y", some "pix"),
   ("width", some "pix"),
   ("aperture", some "pix"),
   ("annulus_inner", some "pix"),
   ("annulus_outer", some "pix"),
   ("aperture_sum", none),
   ("annulus_sum", none),
   ("sky_per_pix_avg", none),
   ("sky_per_pix_med", none),
   ("sky_per_pix_std", none),
   ("aperture_net_cnts", none),
   ("noise", none),
   ("exposure", some "s"),
   ("date-obs", none),
   ("airmass", none),
   ("passband", none),
   ("file", none)]

/-- The validation loop of BaseEnhancedTable.__init__: for each described
column, when a unit is required, a missing column raises the missing-column
ValueError (KeyError caught) and a differing unit raises the wrong-unit
ValueError. Described columns with no required unit are skipped by the loop. -/
def validateDescription : Description → Table → Except PhotError Unit
  | [], _ => .ok ()
  | (_, none) :: rest, t => validateDescription rest t
  | (c, some u) :: rest, t =>
    match getCol t c with
    | none => .error (.missingColumn c)
    | some col =>
      if col.unit ≠ some u then .error (.wrongUnit c u col.unit)
      else validateDescription rest t

/-- BaseEnhancedTable.__init__: validate the description against the data, then
hand the (unmodified) data to the QTable constructor. -/
def BaseEnhancedTable.init (d : Description) (data : Table) :
    Except PhotError Table :=
  match validateDescription d data with
  | .error e => .error e
  | .ok () => .ok data

/-- counts_columns from PhotometryData.__init__. -/
def countsColumns : List String :=
  ["aperture_sum", "annulus_sum", "sky_per_pix_avg", "sky_per_pix_med",
   "sky_per_pix_std", "aperture_net_cnts", "noise"]

/-- The loop over counts_columns[1:], comparing each unit against the unit of
the first counts column; first mismatch raises, naming that column. -/
def checkCountsAux (cu : Option String) (t : Table) :
    List String → Except PhotError Unit
  | [] => .ok ()
  | c :: rest =>
    match getCol t c with
    | none => .error (.keyError c)
    | some col =>
      if col.unit ≠ cu then .error (.inconsistentUnits c cu col.unit)
      else checkCountsAux cu t rest

/-- The counts-unit consistency check of PhotometryData.__init__. The reference
unit is that of the first counts column, aperture_sum. -/
def checkCountsUnits (t : Table) : Except PhotError Unit :=
  match getCol t "aperture_sum" with
  | none => .error (.keyError "aperture_sum")
  | some c0 => checkCountsAux c0.unit t countsColumns.tail

/-- The date-obs check of PhotometryData.__init__: the first entry must be a
Time value (else the AttributeError is converted to the not-a-time ValueError)
with scale utc (else the wrong-scale ValueError carries the actual scale). -/
def checkDateObs (t : Table) : Except PhotError Unit :=
  match getCol t "date-obs" with
  | none => .error (.keyError "date-obs")
  | some col =>
    match col.cells.head? with
    | none => .error .indexError
    | some (.time _ s) =>
      if s = "utc" then .ok () else .error (.wrongTimeScale s)
    | some _ => .error .dateObsNotTime

/-- Remainder of q modulo m (for positive m, the representative in [0, m)). -/
def qfloorMod (q m : ℚ) : ℚ := q - m * (⌊q / m⌋ : ℚ)

/-- Hour field of the calendar representation of a time given in seconds since
the MJD epoch (leap seconds idealized away). -/
def hourOf (t : ℚ) : ℤ := ⌊qfloorMod t 86400 / 3600⌋

/-- Minute field of the calendar representation. -/
def minuteOf (t : ℚ) : ℤ := ⌊qfloorMod t 3600 / 60⌋

/-- Seconds field (including any fraction) of the calendar representation. -/
def secondOf (t : ℚ) : ℚ := qfloorMod t 60

/-- Truncation toward zero, the behaviour of Python int() and of numpy casting
a float array with dtype=int. -/
def ratTrunc (q : ℚ) : ℤ := if 0 ≤ q then ⌊q⌋ else -⌊-q⌋

/-- hr_offset = int(observatory.lon.value / 15) from the night computation. -/
def hrOffset (lon : ℚ) : ℤ := ratTrunc (lon / 15)

/-- The shift, in seconds, computed by the night branch from the local-time
calendar fields: minus (shift_hr hours + minutes + seconds), where shift_hr
moves the local clock reading to 12 noon. -/
def nightShiftSeconds (localT : ℚ) : ℚ :=
  let hr := hourOf localT
  let shiftHr : ℤ := (if hr < 12 then hr + 12 else hr - 12);
  -((shiftHr : ℚ) * 3600 + (minuteOf localT : ℚ) * 60 + secondOf localT)

/-- The night column value for one observation time t (seconds since the MJD
epoch, UTC): shift computed from the local clock (UTC + hr_offset hours) is
applied to the UTC time, whose MJD is then truncated to an integer. -/
def nightOf (lon : ℚ) (t : ℚ) : ℤ :=
  let localT := t + (hrOffset lon : ℚ) * 3600
  ratTrunc ((t + nightShiftSeconds localT) / 86400)

/-- Night id computed as the claim words it, with an hour offset equal to
floor(longitude / 15) instead of the truncation toward zero the source
performs; all later steps are identical to nightOf. Stated only to be compared
against nightOf. -/
def nightOfSpecFloor (lon : ℚ) (t : ℚ) : ℤ :=
  let localT := t + (⌊lon / 15⌋ : ℚ) * 3600
  ratTrunc ((t + nightShiftSeconds localT) / 86400)

/-- computed_columns from PhotometryData.__init__, in source order. -/
def computedColumns : List String :=
  ["aperture_area", "annulus_area", "snr", "bjd", "night", "mag_inst",
   "mag_error"]

/-- One arm of the match over computed-column names in PhotometryData.__init__.
Exactly as in the source, the arm for mag_error assigns its values to the
mag_inst column, so no mag_error column is ever created. Missing input columns
raise KeyError. -/
def computeColumn (ops : RealOps) (cam : Camera) (obs : Observatory)
    (t : Table) (n : String) : Except PhotError Table :=
  if n = "aperture_area" then
    match getCol t "aperture" with
    | none => .error (.keyError "aperture")
    | some ap => .ok (setCol t "aperture_area"
        ⟨some "pix2", ap.cells.map (fun c => .num (ops.pi * cellNum c ^ 2))⟩)
  else if n = "annulus_area" then
    match getCol t "annulus_outer" with
    | none => .error (.keyError "annulus_outer")
    | some ao =>
      match getCol t "annulus_inner" with
      | none => .error (.keyError "annulus_inner")
      | some ai => .ok (setCol t "annulus_area"
          ⟨some "pix2", (ao.cells.zip ai.cells).map
            (fun p => .num (ops.pi * (cellNum p.1 ^ 2 - cellNum p.2 ^ 2)))⟩)
  else if n = "snr" then
    match getCol t "aperture_net_cnts" with
    | none => .error (.keyError "aperture_net_cnts")
    | some nc =>
      match getCol t "noise" with
      | none => .error (.keyError "noise")
      | some ns => .ok (setCol t "snr"
          ⟨none, (nc.cells.zip ns.cells).map
            (fun p => .num (ops.sqrt cam.gain.value * cellNum p.1
              / cellNum p.2))⟩)
  else if n = "bjd" then
    match getCol t "date-obs" with
    | none => .error (.keyError "date-obs")
    | some dt =>
      match getCol t "ra" with
      | none => .error (.keyError "ra")
      | some ra =>
        match getCol t "dec" with
        | none => .error (.keyError "dec")
        | some de =>
          match getCol t "exposure" with
          | none => .error (.keyError "exposure")
          | some ex => .ok (setCol t "bjd"
              ⟨none, (dt.cells.zip (ra.cells.zip (de.cells.zip ex.cells))).map
                (fun p => .time (ops.bjdFun obs.lat obs.lon (cellTime p.1)
                  (cellNum p.2.1) (cellNum p.2.2.1) (cellNum p.2.2.2))
                  "tdb")⟩)
  else if n = "night" then
    match getCol t "date-obs" with
    | none => .error (.keyError "date-obs")
    | some dt => .ok (setCol t "night"
        ⟨none, dt.cells.map
          (fun c => .num ((nightOf obs.lon (cellTime c) : ℤ) : ℚ))⟩)
  else if n = "mag_inst" then
    match getCol t "aperture_net_cnts" with
    | none => .error (.keyError "aperture_net_cnts")
    | some nc =>
      match getCol t "exposure" with
      | none => .error (.keyError "exposure")
      | some ex => .ok (setCol t "mag_inst"
          ⟨none, (nc.cells.zip ex.cells).map
            (fun p => .num (-(2.5 : ℚ) * ops.log10 (cam.gain.value
              * cellNum p.1 / cellNum p.2)))⟩)
  else if n = "mag_error" then
    match getCol t "snr" with
    | none => .error (.keyError "snr")
    | some sc => .ok (setCol t "mag_inst"
        ⟨none, sc.cells.map
          (fun c => .num ((1.085736205 : ℚ) / cellNum c))⟩)
  else .error (.unreachableColumn n)

/-- The loop over computed_columns: an already-present column raises unless
retain_user_computed is set (in which case it is kept verbatim); otherwise the
column is computed. -/
def computeLoop (ops : RealOps) (cam : Camera) (obs : Observatory)
    (retain : Bool) : List String → Table → Except PhotError Table
  | [], t => .ok t
  | c :: rest, t =>
    if hasCol t c then
      if retain then computeLoop ops cam obs retain rest t
      else .error (.alreadyComputed c)
    else
      match computeColumn ops cam obs t c with
      | .error e => .error e
      | .ok t2 => computeLoop ops cam obs retain rest t2

/-- update_passbands: for each pair of the passband map, rewrite the matching
entries of the passband column in place. -/
def updatePassbands : List (String × String) → Table → Except PhotError Table
  | [], t => .ok t
  | (orig, aavso) :: rest, t =>
    match getCol t "passband" with
    | none => .error (.keyError "passband")
    | some pb => updatePassbands rest (setCol t "passband"
        ⟨pb.unit, pb.cells.map
          (fun c => if c = .str orig then .str aavso else c)⟩)

/-- PhotometryData.__init__, in the order of the source: copying a None
passband map raises AttributeError before anything else; then the date-obs
scale check, the counts-unit consistency check, the BaseEnhancedTable
description validation, the computed-columns loop, and finally the passband
update (reached only with a non-None passband map). -/
def PhotometryData.init (ops : RealOps) (observatory : Observatory)
    (camera : Camera) (data : Table)
    (passband_map : Option (List (String × String)))
    (retain_user_computed : Bool) : Except PhotError Table :=
  match passband_map with
  | none => .error .attributeErrorNoneCopy
  | some pbm =>
    match checkDateObs data with
    | .error e => .error e
    | .ok () =>
      match checkCountsUnits data with
      | .error e => .error e
      | .ok () =>
        match BaseEnhancedTable.init photDescript data with
        | .error e => .error e
        | .ok t0 =>
          match computeLoop ops camera observatory retain_user_computed
              computedColumns t0 with
          | .error e => .error e
          | .ok t1 => updatePassbands pbm t1

/-- Index of the first entry of the normalized profile below one half
(np.arange(len(...))[intensity < 0.5][0]); none when no entry is below. -/
def firstBelowHalf (intensity : List ℚ) : Option Nat :=
  intensity.findIdx? (fun q => q < 1/2)

/-- RadialProfile.find_hwhm: take the first bin below half maximum and its
predecessor (Python index half_index - 1, which wraps to the last entry when
half_index is 0) and solve the linear interpolation between them for the
radius where the intensity is exactly one half. -/
def findHwhm (r intensity : List ℚ) : Option ℚ :=
  match firstBelowHalf intensity with
  | none => none
  | some i =>
    let beforeR := if i = 0 then r.length - 1 else i - 1
    let beforeI := if i = 0 then intensity.length - 1 else i - 1
    match r.get? beforeR, r.get? i, intensity.get? beforeI, intensity.get? i
        with
    | some rMore, some rLess, some iMore, some iLess =>
      some (rLess - (iLess - 1/2) / (iLess - iMore) * (rLess - rMore))
    | _, _, _, _ => none

/-- np.round to the nearest integer, ties to even (numpy's rounding). -/
def roundHalfEven (q : ℚ) : ℤ :=
  let f := ⌊q⌋
  let frac := q - (f : ℚ)
  if frac < 1/2 then f
  else if 1/2 < frac then f + 1
  else if f % 2 = 0 then f else f + 1

/-- RadialProfile.FWHM: int(np.round(2 * HWHM)), as a function of the HWHM. -/
def FWHM (hwhm : ℚ) : ℤ := roundHalfEven (2 * hwhm)

/-- The default recommended aperture radius from SeeingProfileWidget's click
handler: np.round(1.5 * 2 * rad_prof.HWHM, 0), as a function of the HWHM. -/
def defaultApertureRadius (hwhm : ℚ) : ℤ :=
  roundHalfEven ((1.5 : ℚ) * 2 * hwhm)

/-- A one-row column with the given value in counts units. -/
def aduCol (v : ℚ) : Column := ⟨some "adu", [.num v]⟩

/-- A one-row column with the given value in pixel units. -/
def pixCol (v : ℚ) : Column := ⟨some "pix", [.num v]⟩

/-- A one-row column with the given value in degrees. -/
def degCol (v : ℚ) : Column := ⟨some "deg", [.num v]⟩

/-- A concrete one-row table with every column phot_descript requires, gain 1,
aperture_net_cnts 100, exposure 1 s, noise 10, observed at MJD 60000 23:00 UTC
(5184082800 seconds past the MJD epoch). -/
def validTbl : Table :=
  [("star_id", ⟨none, [.str "star-1"]⟩),
   ("ra", degCol 10),
   ("dec", degCol 20),
   ("xcenter", pixCol 50),
   ("ycenter", pixCol 50),
   ("fwhm_x", pixCol 4),
   ("fwhm_y", pixCol 4),
   ("width", pixCol 8),
   ("aperture", pixCol 6),
   ("annulus_inner", pixCol 10),
   ("annulus_outer", pixCol 15),
   ("aperture_sum", aduCol 200),
   ("annulus_sum", aduCol 50),
   ("sky_per_pix_avg", aduCol 1),
   ("sky_per_pix_med", aduCol 1),
   ("sky_per_pix_std", aduCol 1),
   ("aperture_net_cnts", aduCol 100),
   ("noise", aduCol 10),
   ("exposure", ⟨some "s", [.num 1]⟩),
   ("date-obs", ⟨none, [.time 5184082800 "utc"]⟩),
   ("airmass", ⟨none, [.num 1]⟩),
   ("passband", ⟨none, [.str "V"]⟩),
   ("file", ⟨none, [.str "image1.fits"]⟩)]

/-- validTbl with the star_id column removed. -/
def tblNoStarId : Table := validTbl.filter (fun p => p.1 != "star_id")

/-- validTbl with the date-obs entries in the TDB scale instead of UTC. -/
def tdbTbl : Table :=
  setCol validTbl "date-obs" ⟨none, [.time 5184082800 "tdb"]⟩

/-- validTbl with aperture_sum in electron units while the other six counts
columns stay in adu. -/
def countsOddTbl : Table :=
  setCol validTbl "aperture_sum" ⟨some "electron", [.num 200]⟩

/-- Concrete numeric operations used for the concrete runs: any rational
stand-ins are fine since the theorems never depend on their values. -/
def ops0 : RealOps :=
  { pi := 3.141592653589793
    sqrt := fun q => q
    log10 := fun _ => 0
    bjdFun := fun _ _ t _ _ _ => t }

/-- An observatory at longitude and latitude zero. -/
def obs0 : Observatory := ⟨0, 0, 0⟩

/-- A camera with gain 1 (so that sqrt gain is 1 for any sqrt fixing 1). -/
def cam0 : Camera :=
  ⟨⟨1, "electron / adu"⟩, ⟨10, "electron"⟩, ⟨1/100, "electron / s"⟩⟩

/-- The concrete PhotometryData construction on validTbl with an empty
passband map and retain_user_computed False. -/
def run0 : Except PhotError Table :=
  PhotometryData.init ops0 obs0 cam0 validTbl (some []) false

/-- The table produced by run0 (empty when run0 fails, which it does not). -/
def outTbl : Table :=
  match run0 with
  | .ok t => t
  | .error _ => []

theorem getCol_setCol_ne (t : Table) (n : String) (c : Column) (m : String)
    (h : m ≠ n) : getCol (setCol t n c) m = getCol t m := by
  have hnm : ¬(n = m) := fun hc => h hc.symm
  induction t with
  | nil => simp [setCol, getCol, hnm]
  | cons hd rest ih =>
    obtain ⟨k, d⟩ := hd
    by_cases hk : k = n
    · subst hk
      simp [setCol, getCol, hnm]
    · simp only [setCol, getCol, if_neg hk]
      by_cases hkm : k = m
      · simp [getCol, hkm]
      · simp [getCol, hkm, ih]

theorem computeColumn_ok_magerr (ops : RealOps) (cam : Camera)
    (obs : Observatory) (t : Table) (n : String) (t2 : Table)
    (h : computeColumn ops cam obs t n = .ok t2) :
    getCol t2 "mag_error" = getCol t "mag_error" := by
  unfold computeColumn at h
  split_ifs at h <;> (repeat' split at h)
  all_goals
    first
    | exact Except.noConfusion h
    | (injection h with h2; subst h2;
       exact getCol_setCol_ne _ _ _ _ (by decide))

theorem computeLoop_ok_magerr (ops : RealOps) (cam : Camera)
    (obs : Observatory) (retain : Bool) :
    ∀ (L : List String) (t t2 : Table),
      computeLoop ops cam obs retain L t = .ok t2 →
      getCol t2 "mag_error" = getCol t "mag_error" := by
  intro L
  induction L with
  | nil =>
    intro t t2 h
    unfold computeLoop at h
    injection h with h
    rw [h]
  | cons c rest ih =>
    intro t t2 h
    unfold computeLoop at h
    split_ifs at h <;>
      first
      | exact Except.noConfusion h
      | exact ih t t2 h
      | (cases hcc : computeColumn ops cam obs t c with
         | error e => rw [hcc] at h; exact Except.noConfusion h
         | ok tmid =>
           rw [hcc] at h
           rw [ih tmid t2 h]
           exact computeColumn_ok_magerr ops cam obs t c tmid hcc)

theorem updatePassbands_ok_magerr :
    ∀ (m : List (String × String)) (t t2 : Table),
      updatePassbands m t = .ok t2 →
      getCol t2 "mag_error" = getCol t "mag_error" := by
  intro m
  induction m with
  | nil =>
    intro t t2 h
    unfold updatePassbands at h
    injection h with h
    rw [h]
  | cons p rest ih =>
    obtain ⟨o, a⟩ := p
    intro t t2 h
    unfold updatePassbands at h
    cases hg : getCol t "passband" with
    | none => rw [hg] at h; exact Except.noConfusion h
    | some pb =>
      rw [hg] at h
      rw [ih _ t2 h]
      exact getCol_setCol_ne _ _ _ _ (by decide)

theorem initNone_eq (ops : RealOps) (obs : Observatory) (cam : Camera)
    (data : Table) (retain : Bool) :
    PhotometryData.init ops obs cam data none retain
      = .error .attributeErrorNoneCopy := rfl

theorem baseInit_ok_eq (d : Description) (t t2 : Table)
    (h : BaseEnhancedTable.init d t = .ok t2) : t2 = t := by
  unfold BaseEnhancedTable.init at h
  cases hv : validateDescription d t with
  | error e => rw [hv] at h; exact Except.noConfusion h
  | ok u =>
    cases u
    rw [hv] at h
    injection h with h
    exact h.symm

theorem run0_ok : run0 = .ok outTbl := by
  unfold outTbl
  cases h : run0 with
  | ok t => rfl
  | error e =>
    have hok : isOkB run0 = true := by decide
    rw [h] at hok
    exact Bool.noConfusion hok

/-- C10: PhotometryData cannot be constructed with the default
passband_map=None: for every operation set, observatory, camera, input table
and retain flag, construction with passband_map None fails with the
AttributeError raised by passband_map.copy(), before any validation runs (the
result is this error even for tables that would fail or pass every later
check). -/
theorem c10_none_passband_map_attribute_error (ops : RealOps)
    (obs : Observatory) (cam : Camera) (data : Table) (retain : Bool) :
    PhotometryData.init ops obs cam data none retain
      = .error .attributeErrorNoneCopy := rfl

/-- C3 (code bug): a table with every required column except star_id (a column
whose required unit is None) passes BaseEnhancedTable validation unchanged and
PhotometryData construction succeeds, because the validation loop skips the
presence check for columns whose described unit is None — contradicting the
claim and the docstring of BaseEnhancedTable. -/
theorem c3_missing_star_id_accepted :
    hasCol tblNoStarId "star_id" = false
    ∧ BaseEnhancedTable.init photDescript tblNoStarId = .ok tblNoStarId
    ∧ isOkB (PhotometryData.init ops0 obs0 cam0 tblNoStarId (some []) false)
        = true := by
  refine ⟨by decide, by decide, by decide⟩

/-- C2 (code bug): on the valid one-row table with gain 1,
aperture_net_cnts 100, exposure 1 s and noise 10, construction succeeds but
the final mag_inst value is 1.085736205 / snr = 0.1085736205 — the mag_error
arm of the source overwrites mag_inst — and not the claimed
−2.5·log10(gain·net/exposure) = −5. -/
theorem c2_mag_inst_overwritten :
    isOkB run0 = true
    ∧ getColCells outTbl "mag_inst" = [Cell.num ((1.085736205 : ℚ) / 10)]
    ∧ ((1.085736205 : ℚ) / 10) ≠ (-5 : ℚ) := by
  refine ⟨by decide, ?_, by norm_num⟩
  norm_num [getColCells, outTbl, run0, PhotometryData.init, checkDateObs,
    checkCountsUnits, checkCountsAux, countsColumns, BaseEnhancedTable.init,
    validateDescription, photDescript, computeLoop, computedColumns,
    computeColumn, updatePassbands, validTbl, ops0, obs0, cam0, getCol, setCol,
    hasCol, aduCol, pixCol, degCol, cellNum, cellTime]
  simp

/-- C1 (code bug): whenever PhotometryData construction succeeds on an input
table that has no mag_error column, the output table has no mag_error column
either — the source's mag_error arm writes its values into mag_inst, so the
claimed mag_error column is never created. Holds for every operation set,
observatory, camera, passband map and retain flag. -/
theorem c1_mag_error_column_never_created (ops : RealOps) (obs : Observatory)
    (cam : Camera) (data : Table)
    (pbm : Option (List (String × String))) (retain : Bool) (out : Table)
    (hinit : PhotometryData.init ops obs cam data pbm retain = .ok out)
    (hin : hasCol data "mag_error" = false) :
    hasCol out "mag_error" = false := by
  cases pbm with
  | none => rw [initNone_eq] at hinit; exact Except.noConfusion hinit
  | some pbm =>
    simp only [PhotometryData.init] at hinit
    split at hinit
    · exact Except.noConfusion hinit
    · split at hinit
      · exact Except.noConfusion hinit
      · split at hinit
        · exact Except.noConfusion hinit
        · rename_i t0 heq3
          split at hinit
          · exact Except.noConfusion hinit
          · rename_i t1 heq4
            have e1 := updatePassbands_ok_magerr pbm t1 out hinit
            have e2 := computeLoop_ok_magerr ops cam obs retain
              computedColumns t0 t1 heq4
            have ht0 : t0 = data := baseInit_ok_eq _ _ _ heq3
            unfold hasCol at hin ⊢
            rw [e1, e2, ht0]
            exact hin

/-- Witness for C1 at the concrete valid table: the construction run0 succeeds
and its output has no mag_error column. -/
theorem c1_mag_error_column_never_created_witness :
    hasCol outTbl "mag_error" = false :=
  c1_mag_error_column_never_created ops0 obs0 cam0 validTbl (some []) false
    outTbl run0_ok (by decide)

/-- C4 counterexample: when aperture_sum itself is the lone differing counts
column (electron while the other six are adu), construction fails with an
error naming annulus_sum — not aperture_sum — because aperture_sum is the
reference the others are compared against. -/
theorem c4_counterexample_aperture_sum_misreported :
    unitOf countsOddTbl "aperture_sum" = some (some "electron")
    ∧ (countsColumns.tail.all
        (fun c => unitOf countsOddTbl c == some (some "adu"))) = true
    ∧ PhotometryData.init ops0 obs0 cam0 countsOddTbl (some []) false
        = .error (.inconsistentUnits "annulus_sum" (some "electron")
            (some "adu")) := by
  refine ⟨by decide, by decide, by decide⟩

/-- C4 amended: with all seven counts columns present, the consistency check
passes when all seven units agree, and otherwise fails naming the first of
the six compared columns whose unit differs from that of aperture_sum (the
reference). In particular a lone differing column among the six is named
exactly, while a differing aperture_sum is reported as annulus_sum. -/
theorem c4_amended_first_mismatch_reported (data : Table)
    (u1 u2 u3 u4 u5 u6 u7 : Option String)
    (h1 : unitOf data "aperture_sum" = some u1)
    (h2 : unitOf data "annulus_sum" = some u2)
    (h3 : unitOf data "sky_per_pix_avg" = some u3)
    (h4 : unitOf data "sky_per_pix_med" = some u4)
    (h5 : unitOf data "sky_per_pix_std" = some u5)
    (h6 : unitOf data "aperture_net_cnts" = some u6)
    (h7 : unitOf data "noise" = some u7) :
    ((u2 = u1 ∧ u3 = u1 ∧ u4 = u1 ∧ u5 = u1 ∧ u6 = u1 ∧ u7 = u1) →
        checkCountsUnits data = .ok ())
    ∧ (u2 ≠ u1 → checkCountsUnits data
        = .error (.inconsistentUnits "annulus_sum" u1 u2))
    ∧ (u2 = u1 → u3 ≠ u1 → checkCountsUnits data
        = .error (.inconsistentUnits "sky_per_pix_avg" u1 u3))
    ∧ (u2 = u1 → u3 = u1 → u4 ≠ u1 → checkCountsUnits data
        = .error (.inconsistentUnits "sky_per_pix_med" u1 u4))
    ∧ (u2 = u1 → u3 = u1 → u4 = u1 → u5 ≠ u1 → checkCountsUnits data
        = .error (.inconsistentUnits "sky_per_pix_std" u1 u5))
    ∧ (u2 = u1 → u3 = u1 → u4 = u1 → u5 = u1 → u6 ≠ u1 →
        checkCountsUnits data
          = .error (.inconsistentUnits "aperture_net_cnts" u1 u6))
    ∧ (u2 = u1 → u3 = u1 → u4 = u1 → u5 = u1 → u6 = u1 → u7 ≠ u1 →
        checkCountsUnits data
          = .error (.inconsistentUnits "noise" u1 u7)) := by
  simp only [unitOf] at h1 h2 h3 h4 h5 h6 h7
  obtain ⟨c1, hc1, hu1⟩ := Option.map_eq_some'.mp h1
  obtain ⟨c2, hc2, hu2⟩ := Option.map_eq_some'.mp h2
  obtain ⟨c3, hc3, hu3⟩ := Option.map_eq_some'.mp h3
  obtain ⟨c4, hc4, hu4⟩ := Option.map_eq_some'.mp h4
  obtain ⟨c5, hc5, hu5⟩ := Option.map_eq_some'.mp h5
  obtain ⟨c6, hc6, hu6⟩ := Option.map_eq_some'.mp h6
  obtain ⟨c7, hc7, hu7⟩ := Option.map_eq_some'.mp h7
  have base : checkCountsUnits data
      = checkCountsAux u1 data
          ["annulus_sum", "sky_per_pix_avg", "sky_per_pix_med",
           "sky_per_pix_std", "aperture_net_cnts", "noise"] := by
    simp only [checkCountsUnits, hc1, hu1, countsColumns, List.tail_cons]
  refine ⟨?_, ?_, ?_, ?_, ?_, ?_, ?_⟩
  · rintro ⟨e2, e3, e4, e5, e6, e7⟩
    rw [base]
    simp [checkCountsAux, hc2, hc3, hc4, hc5, hc6, hc7,
      hu2, hu3, hu4, hu5, hu6, hu7, e2, e3, e4, e5, e6, e7]
  · intro n2
    rw [base]
    simp [checkCountsAux, hc2, hu2, n2]
  · intro e2 n3
    rw [base]
    simp [checkCountsAux, hc2, hc3, hu2, hu3, e2, n3]
  · intro e2 e3 n4
    rw [base]
    simp [checkCountsAux, hc2, hc3, hc4, hu2, hu3, hu4, e2, e3, n4]
  · intro e2 e3 e4 n5
    rw [base]
    simp [checkCountsAux, hc2, hc3, hc4, hc5, hu2, hu3, hu4, hu5,
      e2, e3, e4, n5]
  · intro e2 e3 e4 e5 n6
    rw [base]
    simp [checkCountsAux, hc2, hc3, hc4, hc5, hc6, hu2, hu3, hu4, hu5, hu6,
      e2, e3, e4, e5, n6]
  · intro e2 e3 e4 e5 e6 n7
    rw [base]
    simp [checkCountsAux, hc2, hc3, hc4, hc5, hc6, hc7,
      hu2, hu3, hu4, hu5, hu6, hu7, e2, e3, e4, e5, e6, n7]

/-- Witness for C4 amended: on the concrete valid table, where all seven
counts columns are in adu, the consistency check passes. -/
theorem c4_amended_first_mismatch_reported_witness :
    checkCountsUnits validTbl = .ok () :=
  (c4_amended_first_mismatch_reported validTbl
    (some "adu") (some "adu") (some "adu") (some "adu") (some "adu")
    (some "adu") (some "adu")
    (by decide) (by decide) (by decide) (by decide) (by decide) (by decide)
    (by decide)).1 ⟨rfl, rfl, rfl, rfl, rfl, rfl⟩

/-- C5 counterexample: at longitude −100° the source's hour offset
int(lon/15) is −6 while the claimed floor(lon/15) is −7, and at 18:00 UTC on
MJD 60000 the two recipes assign different night ids, so the claim's
"for every longitude, including negative ones" fails. -/
theorem c5_counterexample_negative_longitude :
    hrOffset (-100) = -6
    ∧ ⌊(-100 : ℚ) / 15⌋ = -7
    ∧ nightOf (-100) 5184064800 = 60000
    ∧ nightOfSpecFloor (-100) 5184064800 = 59999 := by
  refine ⟨?_, by norm_num, ?_, ?_⟩
  · norm_num [hrOffset, ratTrunc]
  · norm_num [nightOf, hrOffset, ratTrunc, nightShiftSeconds, hourOf,
      minuteOf, secondOf, qfloorMod]
  · norm_num [nightOfSpecFloor, ratTrunc, nightShiftSeconds, hourOf,
      minuteOf, secondOf, qfloorMod]

/-- C5 amended: the hour offset is the truncation toward zero of lon/15,
which agrees with floor(lon/15) for nonnegative longitudes; with that offset
the claimed night-grouping behaviour holds: at longitude 0°, observations at
23:00 and 01:00 (2 h apart, straddling local midnight) share a night id, and
observations at 06:00 and 19:00 (13 h apart, crossing local noon) get
different night ids. -/
theorem c5_amended_trunc_offset_and_night_grouping :
    (∀ lon t : ℚ, 0 ≤ lon → nightOf lon t = nightOfSpecFloor lon t)
    ∧ nightOf 0 5184082800 = nightOf 0 5184090000
    ∧ nightOf 0 5184021600 ≠ nightOf 0 5184068400 := by
  refine ⟨?_, ?_, ?_⟩
  · intro lon t hlon
    have hoff : hrOffset lon = ⌊lon / 15⌋ := by
      unfold hrOffset ratTrunc
      rw [if_pos (div_nonneg hlon (by norm_num))]
    simp only [nightOf, nightOfSpecFloor, hoff]
  · norm_num [nightOf, hrOffset, ratTrunc, nightShiftSeconds, hourOf,
      minuteOf, secondOf, qfloorMod]
  · norm_num [nightOf, hrOffset, ratTrunc, nightShiftSeconds, hourOf,
      minuteOf, secondOf, qfloorMod]

/-- Witness for C5 amended at longitude 37°. -/
theorem c5_amended_trunc_offset_witness :
    nightOf 37 5184082800 = nightOfSpecFloor 37 5184082800 :=
  c5_amended_trunc_offset_and_night_grouping.1 37 5184082800 (by norm_num)

/-- C6: with a non-None passband map, any table whose first date-obs entry is
a Time value in a scale other than utc makes construction fail with the
wrong-scale error (carrying that scale) before any column is computed, while
a first date-obs entry that is not a Time value at all fails with the
distinct not-a-time error. -/
theorem c6_time_scale_check (ops : RealOps) (obs : Observatory) (cam : Camera)
    (data : Table) (m : List (String × String)) (retain : Bool)
    (x : ℚ) (s : String) (hs : s ≠ "utc")
    (hcell : getCell0 data "date-obs" = some (.time x s)) :
    PhotometryData.init ops obs cam data (some m) retain
      = .error (.wrongTimeScale s)
    ∧ (∀ (data2 : Table) (v : ℚ),
        getCell0 data2 "date-obs" = some (.num v) →
        PhotometryData.init ops obs cam data2 (some m) retain
          = .error .dateObsNotTime)
    ∧ (PhotError.wrongTimeScale s ≠ PhotError.dateObsNotTime) := by
  refine ⟨?_, ?_, by simp⟩
  · obtain ⟨col, hcol, hhead⟩ := Option.bind_eq_some.mp hcell
    have hcd : checkDateObs data = .error (.wrongTimeScale s) := by
      simp only [checkDateObs, hcol, hhead]
      rw [if_neg hs]
    simp only [PhotometryData.init, hcd]
  · intro data2 v hcell2
    obtain ⟨col, hcol, hhead⟩ := Option.bind_eq_some.mp hcell2
    have hcd : checkDateObs data2 = .error .dateObsNotTime := by
      simp only [checkDateObs, hcol, hhead]
    simp only [PhotometryData.init, hcd]

/-- Witness for C6 at the concrete table whose date-obs entries are in the
TDB scale. -/
theorem c6_time_scale_check_witness :
    PhotometryData.init ops0 obs0 cam0 tdbTbl (some []) false
      = .error (.wrongTimeScale "tdb") :=
  (c6_time_scale_check ops0 obs0 cam0 tdbTbl [] false 5184082800 "tdb"
    (by decide) (by decide)).1

/-- C7: find_hwhm takes the first bin whose normalized intensity is below one
half and its immediate predecessor, and returns the radius solving the linear
interpolation between them for intensity one half (the returned radius
plugged into the line through the two bins gives exactly 1/2); on the profile
with intensities 1, 3/5, 2/5 at average radii 0, 3, 4 it returns 7/2. -/
theorem c7_hwhm_interpolation (r intensity : List ℚ) (i : Nat)
    (hfind : firstBelowHalf intensity = some i) (hi : 1 ≤ i)
    (rMore rLess iMore iLess : ℚ)
    (hrm : r.get? (i - 1) = some rMore) (hrl : r.get? i = some rLess)
    (him : intensity.get? (i - 1) = some iMore)
    (hil : intensity.get? i = some iLess)
    (hne : iLess ≠ iMore) (hrne : rLess ≠ rMore) :
    findHwhm r intensity
      = some (rLess - (iLess - 1/2) / (iLess - iMore) * (rLess - rMore))
    ∧ iMore + ((rLess - (iLess - 1/2) / (iLess - iMore) * (rLess - rMore))
          - rMore) / (rLess - rMore) * (iLess - iMore) = 1/2
    ∧ findHwhm [0, 3, 4] [1, 3/5, 2/5] = some (7/2) := by
  have hi0 : ¬(i = 0) := by omega
  refine ⟨?_, ?_, ?_⟩
  · simp only [findHwhm, hfind, if_neg hi0, hrm, hrl, him, hil]
  · have d1 : iLess - iMore ≠ 0 := sub_ne_zero.mpr hne
    have d2 : rLess - rMore ≠ 0 := sub_ne_zero.mpr hrne
    field_simp
    ring
  · norm_num [findHwhm, firstBelowHalf, List.findIdx?,
      show ([0, 3, 4] : List ℚ)[2] = 4 from rfl,
      show ([1, 3/5, 2/5] : List ℚ)[2] = 2/5 from rfl]

/-- Witness for C7 on the claimed profile: the returned HWHM is 3.5. -/
theorem c7_hwhm_interpolation_witness :
    findHwhm [0, 3, 4] [1, 3/5, 2/5] = some (7/2) := by
  have h := (c7_hwhm_interpolation [0, 3, 4] [1, 3/5, 2/5] 2
    (by norm_num [firstBelowHalf, List.findIdx?]) (by norm_num)
    3 4 (3/5) (2/5) rfl rfl rfl rfl (by norm_num) (by norm_num)).1
  rw [h]
  norm_num

/-- C8 counterexample: on a profile with HWHM 6/5 the source computes the
default radius np.round(1.5·2·HWHM) = round(3.6) = 4, while the claim's
round(1.5·FWHM) with FWHM = round(2·HWHM) gives round(1.5·2) = 3. -/
theorem c8_counterexample_radius_formula :
    findHwhm [0, 1, 2] [1, 3/5, 1/10] = some (6/5)
    ∧ defaultApertureRadius (6/5) = 4
    ∧ roundHalfEven ((1.5 : ℚ) * ((FWHM (6/5) : ℤ) : ℚ)) = 3 := by
  refine ⟨?_, ?_, ?_⟩
  · norm_num [findHwhm, firstBelowHalf, List.findIdx?,
      show ([0, 1, 2] : List ℚ)[2] = 2 from rfl,
      show ([1, 3/5, 1/10] : List ℚ)[2] = 1/10 from rfl]
  · norm_num [defaultApertureRadius, roundHalfEven]
  · norm_num [FWHM, roundHalfEven]

/-- C8 amended: the default recommended aperture radius is
np.round(1.5·2·HWHM) = round(3·HWHM) computed from the unrounded HWHM, and
FWHM = round(2·HWHM); the two recipes disagree for some HWHM values, e.g.
HWHM = 6/5. -/
theorem c8_amended_radius_from_hwhm :
    (∀ h : ℚ, defaultApertureRadius h = roundHalfEven (3 * h))
    ∧ (∀ h : ℚ, FWHM h = roundHalfEven (2 * h))
    ∧ defaultApertureRadius (6/5)
        ≠ roundHalfEven ((1.5 : ℚ) * ((FWHM (6/5) : ℤ) : ℚ)) := by
  refine ⟨?_, fun h => rfl, ?_⟩
  · intro h
    unfold defaultApertureRadius
    have e : (1.5 : ℚ) * 2 * h = 3 * h := by norm_num
    rw [e]
  · have e1 : defaultApertureRadius (6/5) = 4 := by
      norm_num [defaultApertureRadius, roundHalfEven]
    have e2 : roundHalfEven ((1.5 : ℚ) * ((FWHM (6/5) : ℤ) : ℚ)) = 3 := by
      norm_num [FWHM, roundHalfEven]
    rw [e1, e2]
    norm_num

/-- C9 counterexample: feeding the output of a successful construction back
into PhotometryData with default flags does not succeed: the default
passband_map None raises the AttributeError, and even with a passband map
supplied, the already-present computed column aperture_area is rejected
because retain_user_computed defaults to False. -/
theorem c9_counterexample_reconstruction_default_flags :
    PhotometryData.init ops0 obs0 cam0 outTbl none false
      = .error .attributeErrorNoneCopy
    ∧ PhotometryData.init ops0 obs0 cam0 outTbl (some []) false
      = .error (.alreadyComputed "aperture_area") := by
  refine ⟨rfl, by decide⟩

/-- C9 amended: BaseEnhancedTable validation of an already-valid table is a
no-op returning the same table (and validating that output again succeeds),
and reconstruction from a previous construction's output does succeed and
return the identical table when retain_user_computed is True and a passband
map is supplied. -/
theorem c9_amended_validation_idempotent :
    (∀ (d : Description) (t t2 : Table),
        BaseEnhancedTable.init d t = .ok t2 →
        t2 = t ∧ BaseEnhancedTable.init d t2 = .ok t2)
    ∧ PhotometryData.init ops0 obs0 cam0 outTbl (some []) true
        = .ok outTbl := by
  refine ⟨?_, rfl⟩
  intro d t t2 h
  have e : t2 = t := baseInit_ok_eq d t t2 h
  subst e
  exact ⟨rfl, h⟩

/-- Witness for C9 amended: validating the concrete valid table is a no-op
returning the same table. -/
theorem c9_amended_validation_idempotent_witness :
    BaseEnhancedTable.init photDescript validTbl = .ok validTbl :=
  (c9_amended_validation_idempotent.1 photDescript validTbl validTbl
    (by decide)).2

end Stellarphot
